import Mathlib

/-
Verification development for the MOSDAC knowledge-graph ingestion pipeline
(src/ML_microservices/mosdac_graph_loader.py).  The Python module is shallowly
embedded: JSON values become an inductive type, Python expressions that can
raise become Except-valued functions, the Neo4j / Graphiti backends become
oracle records describing the outcome of each external call, and every
side effect that a claim talks about (queries run, files read, episodes
submitted, warnings printed) is recorded in an explicit trace or result list.
-/

set_option maxHeartbeats 1000000
set_option maxRecDepth 100000

namespace Mosdac

/-- JSON values as produced by Python's json.load.  Numbers are modelled as
integers; no behaviour examined here depends on non-integral numerics. -/
inductive JValue where
  | null
  | bool (b : Bool)
  | num (n : Int)
  | str (s : String)
  | arr (elems : List JValue)
  | obj (fields : List (String × JValue))

/-- First binding of a key in an association list (Python dict lookup; the
dict literals built below keep keys distinct via insertPy, mirroring Python). -/
def lookupField : List (String × JValue) → String → Option JValue
  | [], _ => none
  | (k, v) :: rest, key => if k = key then some v else lookupField rest key

/-- Python `d.get(key, dflt)`.  Raises AttributeError when the receiver is not
a dict (e.g. a dataset entry that is a bare string or number). -/
def dictGet (v : JValue) (key : String) (dflt : JValue) : Except String JValue :=
  match v with
  | .obj fields => .ok ((lookupField fields key).getD dflt)
  | _ => .error "AttributeError: object has no attribute get"

/-- Insertion into a Python dict: an existing key keeps its position and takes
the new value; a new key is appended at the end. -/
def insertPy (fields : List (String × JValue)) (k : String) (v : JValue) :
    List (String × JValue) :=
  if fields.any (fun p => p.1 = k) then
    fields.map (fun p => if p.1 = k then (k, v) else p)
  else
    fields ++ [(k, v)]

/-- Semantics of a Python dict literal: entries are evaluated left to right; a
duplicated key keeps its first position and ends up with its last value. -/
def mkDict (pairs : List (String × JValue)) : List (String × JValue) :=
  pairs.foldl (fun acc p => insertPy acc p.1 p.2) []

mutual

/-- Python repr of a JSON value (quote escaping inside nested reprs is not
modelled; no claim depends on it). -/
def pyRepr : JValue → String
  | .null => "None"
  | .bool true => "True"
  | .bool false => "False"
  | .num n => toString n
  | .str s => "\x27" ++ s ++ "\x27"
  | .arr xs => "[" ++ String.intercalate ", " (pyReprList xs) ++ "]"
  | .obj fs => "\x7b" ++ String.intercalate ", " (pyReprFields fs) ++ "\x7d"

/-- Reprs of the elements of a list. -/
def pyReprList : List JValue → List String
  | [] => []
  | v :: vs => pyRepr v :: pyReprList vs

/-- Reprs of the entries of a dict. -/
def pyReprFields : List (String × JValue) → List String
  | [] => []
  | (k, v) :: fs => ("\x27" ++ k ++ "\x27: " ++ pyRepr v) :: pyReprFields fs

end

/-- Python str() as used inside an f-string. -/
def pyStr : JValue → String
  | .str s => s
  | v => pyRepr v

/-- Python `x[:50]`: slicing is defined for strings and lists and raises
TypeError otherwise (None, numbers, booleans, dicts). -/
def pySlice50 (v : JValue) : Except String JValue :=
  match v with
  | .str s => .ok (.str (s.take 50))
  | .arr xs => .ok (.arr (xs.take 50))
  | _ => .error "TypeError: object is not subscriptable"

/-- Python len(). -/
def pyLen : JValue → Except String Nat
  | .str s => .ok s.length
  | .arr xs => .ok xs.length
  | .obj fs => .ok fs.length
  | _ => .error "TypeError: object has no len"

/-- Python iteration (enumerate): lists yield elements, strings yield their
characters, dicts yield their keys; other values raise TypeError. -/
def pyIter : JValue → Except String (List JValue)
  | .str s => .ok (s.toList.map (fun c => .str (String.singleton c)))
  | .arr xs => .ok xs
  | .obj fs => .ok (fs.map (fun p => .str p.1))
  | _ => .error "TypeError: object is not iterable"

/-- Python truthiness. -/
def isTruthy : JValue → Bool
  | .null => false
  | .bool b => b
  | .num n => n != 0
  | .str s => s != ""
  | .arr xs => !xs.isEmpty
  | .obj fs => !fs.isEmpty

/-- Substring test on character lists. -/
def listInfix : List Char → List Char → Bool
  | needle, [] => needle.isEmpty
  | needle, c :: rest => needle.isPrefixOf (c :: rest) || listInfix needle rest

/-- Python `needle in str(e).lower()`, the error-classification idiom of the
source: substring test against the lower-cased error message. -/
def pyInLower (needle hay : String) : Bool :=
  listInfix needle.toList (hay.toList.map Char.toLower)

/-- Whether a JSON value is a dict. -/
def JValue.isObj : JValue → Bool
  | .obj _ => true
  | _ => false

/-- Whether Python slicing is defined on the value. -/
def sliceable : JValue → Bool
  | .str _ => true
  | .arr _ => true
  | _ => false

/-- An episode as handed to graphiti.add_episode.  The Python code serialises
the payload with json.dumps before submission; the payload mapping is kept
structured here (json.dumps is injective on it, and it is total on values that
came from json.load, so nothing is lost). -/
structure Episode where
  name : String
  body : List (String × JValue)
  source_kind : String
  source_description : String
  reference_time : String

/-- Outcome of one iteration of a per-record try/except block:
`attempted` is the episode handed to add_episode (none when the try block
raised before reaching the call), `episode` is the successfully submitted
episode, `warning` is the message printed by the except handler. -/
structure RecordOutcome where
  attempted : Option Episode
  episode : Option Episode
  warning : Option String

/-- Result of a per-record for-loop: episodes submitted, episodes attempted,
warnings printed, and the exception (if any) that escaped the loop. -/
structure LoopResult where
  episodes : List Episode
  attempted : List Episode
  warnings : List String
  escaped : Option String

/-- Run a per-record loop: each record's try/except either yields an outcome
(the loop continues) or lets an exception escape (the loop aborts, keeping the
side effects of the earlier iterations). -/
def runLoop (step : JValue → Except String RecordOutcome) :
    List JValue → LoopResult
  | [] => ⟨[], [], [], none⟩
  | r :: rest =>
    match step r with
    | .error e => ⟨[], [], [], some e⟩
    | .ok out =>
      let tail := runLoop step rest
      ⟨out.episode.toList ++ tail.episodes,
       out.attempted.toList ++ tail.attempted,
       out.warning.toList ++ tail.warnings,
       tail.escaped⟩

/-- Shared body of the five dataset loaders: the header print evaluates
len(data) (which can raise), enumerate(data) iterates it (which can raise),
then the per-record loop runs.  An exception from len or iteration escapes
the loader with no record processed. -/
def runLoader (step : JValue → Except String RecordOutcome)
    (data : JValue) : LoopResult :=
  match pyLen data with
  | .error e => ⟨[], [], [], some e⟩
  | .ok _ =>
    match pyIter data with
    | .error e => ⟨[], [], [], some e⟩
    | .ok records => runLoop step records

/-- The episode_data dict literal of load_satellites (lines 288-295). -/
def satelliteEpisodeData (sat : JValue) : Except String (List (String × JValue)) := do
  let nameV ← dictGet sat "name" .null
  let urlV ← dictGet sat "url" .null
  let descV ← dictGet sat "description" .null
  let docsV ← dictGet sat "documents" (.arr [])
  pure (mkDict [("type", .str "satellite_mission"), ("name", nameV),
    ("url", urlV), ("description", descV), ("documents", docsV),
    ("category", .str "satellite")])

/-- The try block of one load_satellites iteration (lines 285-303): progress
print, payload construction, episode construction. -/
def satTryBlock (rt : String) (sat : JValue) : Except String Episode := do
  let _ ← dictGet sat "name" (.str "Unknown")
  let body ← satelliteEpisodeData sat
  let nv ← dictGet sat "name" (.str "Unknown")
  pure { name := "Satellite Mission: " ++ pyStr nv,
         body := body,
         source_kind := "json",
         source_description := "MOSDAC Satellite Mission Data",
         reference_time := rt }

/-- The except handler of load_satellites (line 305): it re-evaluates
sat.get("name", "Unknown") to build the warning, so it raises itself when the
record is not a dict. -/
def satHandler (sat : JValue) (attempted : Option Episode) :
    Except String RecordOutcome :=
  match dictGet sat "name" (.str "Unknown") with
  | .ok v => .ok ⟨attempted, none, some ("Error loading satellite " ++ pyStr v)⟩
  | .error e => .error e

/-- One iteration of load_satellites: try block, submission (the backend
oracle `submitOk` tells whether add_episode succeeds), except handler. -/
def loadSatelliteRecord (submitOk : Episode → Bool) (rt : String)
    (sat : JValue) : Except String RecordOutcome :=
  match satTryBlock rt sat with
  | .ok ep =>
    if submitOk ep then .ok ⟨some ep, some ep, none⟩
    else satHandler sat (some ep)
  | .error _ => satHandler sat none

/-- load_satellites (lines 280-306): header print (len can raise), iteration
(can raise), then the per-record loop. -/
def loadSatellites (submitOk : Episode → Bool) (rt : String)
    (data : JValue) : LoopResult :=
  runLoader (loadSatelliteRecord submitOk rt) data

/-- The episode_data dict literal of load_products (lines 316-325). -/
def productEpisodeData (product : JValue) : Except String (List (String × JValue)) := do
  let nameV ← dictGet product "name" .null
  let catV ← dictGet product "category" .null
  let descV ← dictGet product "description" .null
  let urlV ← dictGet product "url" .null
  let specV ← dictGet product "specifications" (.obj [])
  let dlV ← dictGet product "download_info" (.obj [])
  let satsV ← dictGet product "satellites" (.arr [])
  pure (mkDict [("type", .str "data_product"), ("name", nameV),
    ("category", catV), ("description", descV), ("url", urlV),
    ("specifications", specV), ("download_info", dlV),
    ("related_satellites", satsV)])

/-- The try block of one load_products iteration (lines 313-333). -/
def productTryBlock (rt : String) (product : JValue) : Except String Episode := do
  let _ ← dictGet product "name" (.str "Unknown Product")
  let body ← productEpisodeData product
  let nv ← dictGet product "name" (.str "Unknown")
  pure { name := "Data Product: " ++ pyStr nv,
         body := body,
         source_kind := "json",
         source_description := "MOSDAC Product Catalog",
         reference_time := rt }

/-- The except handler of load_products (line 335). -/
def productHandler (product : JValue) (attempted : Option Episode) :
    Except String RecordOutcome :=
  match dictGet product "name" (.str "Unknown") with
  | .ok v => .ok ⟨attempted, none, some ("Error loading product " ++ pyStr v)⟩
  | .error e => .error e

/-- One iteration of load_products. -/
def loadProductRecord (submitOk : Episode → Bool) (rt : String)
    (product : JValue) : Except String RecordOutcome :=
  match productTryBlock rt product with
  | .ok ep =>
    if submitOk ep then .ok ⟨some ep, some ep, none⟩
    else productHandler product (some ep)
  | .error _ => productHandler product none

/-- load_products (lines 308-336). -/
def loadProducts (submitOk : Episode → Bool) (rt : String)
    (data : JValue) : LoopResult :=
  runLoader (loadProductRecord submitOk rt) data

/-- The episode_data dict literal of load_documents (lines 346-355). -/
def documentEpisodeData (doc : JValue) : Except String (List (String × JValue)) := do
  let titleV ← dictGet doc "title" .null
  let urlV ← dictGet doc "url" .null
  let ftV ← dictGet doc "file_type" .null
  let sizeV ← dictGet doc "size" .null
  let descV ← dictGet doc "description" .null
  let missionV ← dictGet doc "mission" .null
  pure (mkDict [("type", .str "documentation"), ("title", titleV),
    ("url", urlV), ("file_type", ftV), ("size", sizeV),
    ("description", descV), ("related_mission", missionV),
    ("category", .str "documentation")])

/-- The try block of one load_documents iteration (lines 343-363). -/
def documentTryBlock (rt : String) (doc : JValue) : Except String Episode := do
  let _ ← dictGet doc "title" (.str "Unknown Document")
  let body ← documentEpisodeData doc
  let tv ← dictGet doc "title" (.str "Unknown")
  pure { name := "Document: " ++ pyStr tv,
         body := body,
         source_kind := "json",
         source_description := "MOSDAC Documentation",
         reference_time := rt }

/-- The except handler of load_documents (line 365). -/
def documentHandler (doc : JValue) (attempted : Option Episode) :
    Except String RecordOutcome :=
  match dictGet doc "title" (.str "Unknown") with
  | .ok v => .ok ⟨attempted, none, some ("Error loading document " ++ pyStr v)⟩
  | .error e => .error e

/-- One iteration of load_documents. -/
def loadDocumentRecord (submitOk : Episode → Bool) (rt : String)
    (doc : JValue) : Except String RecordOutcome :=
  match documentTryBlock rt doc with
  | .ok ep =>
    if submitOk ep then .ok ⟨some ep, some ep, none⟩
    else documentHandler doc (some ep)
  | .error _ => documentHandler doc none

/-- load_documents (lines 338-366). -/
def loadDocuments (submitOk : Episode → Bool) (rt : String)
    (data : JValue) : LoopResult :=
  runLoader (loadDocumentRecord submitOk rt) data

/-- The episode_data dict literal of load_mission_metadata (lines 376-386). -/
def metadataEpisodeData (meta : JValue) : Except String (List (String × JValue)) := do
  let missionV ← dictGet meta "mission" .null
  let sensorsV ← dictGet meta "sensors" (.arr [])
  let launchV ← dictGet meta "launch_date" .null
  let agencyV ← dictGet meta "agency" .null
  let orbitV ← dictGet meta "orbit_type" .null
  let appsV ← dictGet meta "applications" (.arr [])
  let techV ← dictGet meta "technical_specs" (.obj [])
  pure (mkDict [("type", .str "mission_metadata"), ("mission", missionV),
    ("sensors", sensorsV), ("launch_date", launchV), ("agency", agencyV),
    ("orbit_type", orbitV), ("applications", appsV),
    ("technical_specs", techV), ("category", .str "metadata")])

/-- The try block of one load_mission_metadata iteration (lines 373-394). -/
def metadataTryBlock (rt : String) (meta : JValue) : Except String Episode := do
  let _ ← dictGet meta "mission" (.str "Unknown")
  let body ← metadataEpisodeData meta
  let mv ← dictGet meta "mission" (.str "Unknown")
  pure { name := "Mission Metadata: " ++ pyStr mv,
         body := body,
         source_kind := "json",
         source_description := "MOSDAC Mission Technical Metadata",
         reference_time := rt }

/-- The except handler of load_mission_metadata (line 396). -/
def metadataHandler (meta : JValue) (attempted : Option Episode) :
    Except String RecordOutcome :=
  match dictGet meta "mission" (.str "Unknown") with
  | .ok v => .ok ⟨attempted, none, some ("Error loading metadata " ++ pyStr v)⟩
  | .error e => .error e

/-- One iteration of load_mission_metadata. -/
def loadMetadataRecord (submitOk : Episode → Bool) (rt : String)
    (meta : JValue) : Except String RecordOutcome :=
  match metadataTryBlock rt meta with
  | .ok ep =>
    if submitOk ep then .ok ⟨some ep, some ep, none⟩
    else metadataHandler meta (some ep)
  | .error _ => metadataHandler meta none

/-- load_mission_metadata (lines 368-397). -/
def loadMissionMetadata (submitOk : Episode → Bool) (rt : String)
    (data : JValue) : LoopResult :=
  runLoader (loadMetadataRecord submitOk rt) data

/-- The episode_data dict literal of load_faqs (lines 407-415).  Note the
source lists the key "category" twice: once as faq.get("category", "general")
and once as the fixed tag "faq"; Python evaluates both and keeps the last
value at the first position, which mkDict reproduces. -/
def faqEpisodeData (faq : JValue) : Except String (List (String × JValue)) := do
  let qV ← dictGet faq "question" .null
  let aV ← dictGet faq "answer" .null
  let catV ← dictGet faq "category" (.str "general")
  let tagsV ← dictGet faq "tags" (.arr [])
  let urlV ← dictGet faq "url" .null
  pure (mkDict [("type", .str "faq"), ("question", qV), ("answer", aV),
    ("category", catV), ("tags", tagsV), ("url", urlV),
    ("category", .str "faq")])

/-- The try block of one load_faqs iteration (lines 404-423): the progress
print and the episode name both slice faq.get("question", "Unknown") with
[:50], which raises TypeError when the question is neither a string nor a
list. -/
def faqTryBlock (rt : String) (faq : JValue) : Except String Episode := do
  let qv ← dictGet faq "question" (.str "Unknown")
  let _ ← pySlice50 qv
  let body ← faqEpisodeData faq
  let qv2 ← dictGet faq "question" (.str "Unknown")
  let qs ← pySlice50 qv2
  pure { name := "FAQ: " ++ pyStr qs,
         body := body,
         source_kind := "json",
         source_description := "MOSDAC FAQ Knowledge Base",
         reference_time := rt }

/-- The except handler of load_faqs (line 425): it re-evaluates
faq.get("question", "Unknown")[:50], so it raises itself whenever that
expression is what failed in the try block. -/
def faqHandler (faq : JValue) (attempted : Option Episode) :
    Except String RecordOutcome :=
  match dictGet faq "question" (.str "Unknown") with
  | .ok v =>
    match pySlice50 v with
    | .ok sv => .ok ⟨attempted, none, some ("Error loading FAQ " ++ pyStr sv)⟩
    | .error e => .error e
  | .error e => .error e

/-- One iteration of load_faqs. -/
def loadFaqRecord (submitOk : Episode → Bool) (rt : String)
    (faq : JValue) : Except String RecordOutcome :=
  match faqTryBlock rt faq with
  | .ok ep =>
    if submitOk ep then .ok ⟨some ep, some ep, none⟩
    else faqHandler faq (some ep)
  | .error _ => faqHandler faq none

/-- load_faqs (lines 399-426). -/
def loadFaqs (submitOk : Episode → Bool) (rt : String)
    (data : JValue) : LoopResult :=
  runLoader (loadFaqRecord submitOk rt) data

/-- A FAQ record for which the per-record try/except of load_faqs cannot
itself raise: the record is a dict and its question (when present) supports
slicing. -/
def faqRecordSafe : JValue → Bool
  | .obj fs =>
    match lookupField fs "question" with
    | none => true
    | some v => sliceable v
  | _ => false

/-- DATA_DIR constant (line 18). -/
def DATA_DIR : String := "E:\\Bharatiya Antariksh Hackathon-2025\\Code1\\Scrapper\\data"

/-- The DATASETS mapping (lines 21-27), in insertion order. -/
def DATASETS : List (String × String) :=
  [("satellites", "satellites.json"),
   ("products", "products.json"),
   ("documents", "documents.json"),
   ("mission_metadata", "mission_metadata.json"),
   ("faqs", "faqs.json")]

/-- Lookup in the DATASETS dict; none models a KeyError. -/
def datasetsLookup : List (String × String) → String → Option String
  | [], _ => none
  | (k, v) :: rest, key => if k = key then some v else datasetsLookup rest key

/-- os.path.join with the Windows-style DATA_DIR of the source. -/
def joinPath (a b : String) : String := a ++ "\\" ++ b

/-- What the filesystem yields for a path: the file is absent, it exists but
json.load raises, or it parses to a value. -/
inductive FileResult where
  | missing
  | parseError
  | content (v : JValue)

/-- File operations performed by load_dataset, recorded as a trace. -/
inductive FileOp where
  | existsCheck (path : String)
  | readParse (path : String)
deriving DecidableEq

/-- Result of load_dataset: `outcome` is the returned boolean, or the
exception that load_dataset itself raises (only the KeyError of the DATASETS
lookup on line 430 can escape, everything after it is inside try/except). -/
structure DSResult where
  outcome : Except String Bool
  fileOps : List FileOp
  episodes : List Episode
  attempted : List Episode
  warnings : List String

/-- Dispatch of load_dataset to the per-kind loader (lines 445-454).  A name
outside the five matches no branch and loads nothing (unreachable from
load_all_datasets, which iterates DATASETS' own keys). -/
def routeLoader (submitOk : Episode → Bool) (rt : String)
    (name : String) (data : JValue) : LoopResult :=
  if name = "satellites" then loadSatellites submitOk rt data
  else if name = "products" then loadProducts submitOk rt data
  else if name = "documents" then loadDocuments submitOk rt data
  else if name = "mission_metadata" then loadMissionMetadata submitOk rt data
  else if name = "faqs" then loadFaqs submitOk rt data
  else ⟨[], [], [], none⟩

/-- load_dataset (lines 428-460).  DATASETS[dataset_name] is evaluated first
and its KeyError propagates before any file operation; then existence check,
read/parse, truthiness check, and routing, with every exception from the read
onwards caught and turned into the return value False. -/
def loadDataset (fs : String → FileResult) (submitOk : Episode → Bool)
    (rt : String) (name : String) : DSResult :=
  match datasetsLookup DATASETS name with
  | none => ⟨.error "KeyError", [], [], [], []⟩
  | some fname =>
    let path := joinPath DATA_DIR fname
    match fs path with
    | .missing => ⟨.ok false, [.existsCheck path], [], [], []⟩
    | .parseError =>
      ⟨.ok false, [.existsCheck path, .readParse path], [], [], []⟩
    | .content data =>
      if isTruthy data then
        let lr := routeLoader submitOk rt name data
        match lr.escaped with
        | some _ =>
          ⟨.ok false, [.existsCheck path, .readParse path],
           lr.episodes, lr.attempted, lr.warnings⟩
        | none =>
          ⟨.ok true, [.existsCheck path, .readParse path],
           lr.episodes, lr.attempted, lr.warnings⟩
      else
        ⟨.ok false, [.existsCheck path, .readParse path], [], [], []⟩

/-- Backend-visible events of the bootstrap phase, with success flags on the
state-changing ones. -/
inductive BackendEv where
  | queryComponents
  | queryShowDatabases
  | createDb (stmt : String) (succeeded : Bool)
  | sleepSeconds (n : Nat)
  | queryShowStatus
  | runTestQuery
  | wipeData (succeeded : Bool)
  | createMosdac (succeeded : Bool)
  | buildIndices
  | closeGraphitiClient
deriving DecidableEq

/-- Oracle describing the Neo4j backend's response to each call site of the
bootstrap code.  Deterministic responses model one stable backend state. -/
structure Neo4jSession where
  sessionAvailable : Except String Unit
  componentsOutcome : Except String Unit
  showDatabases1 : Except String (List String)
  createOutcome : String → Except String Unit
  showStatus : Except String (List (String × Option String))
  testQuery : Except String Unit
  wipeOutcome : Except String Unit
  createMosdacOutcome : Except String Unit

/-- Result of the creation / workaround helpers: returned boolean, events,
and the using_default_db flag they may set. -/
structure TCResult where
  result : Bool
  events : List BackendEv
  flag : Bool

/-- The status poll loop of _try_create_database (lines 116-123): first row
named default_db decides via currentStatus (defaulted to "unknown"),
comparison with "online"; no matching row falls through to `return True`. -/
def pollRows : List (String × Option String) → Bool
  | [] => true
  | (n, st) :: rest =>
    if n = "default_db" then (st.getD "unknown") = "online"
    else pollRows rest

/-- The post-creation verification (lines 111-125): a raising poll is
swallowed by the bare except and `return True` follows. -/
def pollDecision (s : Neo4jSession) : Bool :=
  match s.showStatus with
  | .error _ => true
  | .ok rows => pollRows rows

/-- _handle_community_edition (lines 184-204): trivial round-trip query, set
using_default_db, destructive wipe; any exception in that block returns
False (the flag was already set when the wipe raises). -/
def handleCommunityEdition (s : Neo4jSession) : TCResult :=
  match s.testQuery with
  | .ok _ =>
    match s.wipeOutcome with
    | .ok _ => ⟨true, [.runTestQuery, .wipeData true], true⟩
    | .error _ => ⟨false, [.runTestQuery, .wipeData false], true⟩
  | .error _ => ⟨false, [.runTestQuery], false⟩

/-- Workaround 2 and 3 of _try_workarounds (lines 170-182), entered with the
events and flag accumulated by workaround 1. -/
def workaroundsTail (s : Neo4jSession) (evs : List BackendEv) (flag : Bool) :
    TCResult :=
  match s.createMosdacOutcome with
  | .ok _ => ⟨true, evs ++ [.createMosdac true], flag⟩
  | .error _ =>
    let r := handleCommunityEdition s
    ⟨r.result, evs ++ [.createMosdac false] ++ r.events, flag || r.flag⟩

/-- _try_workarounds (lines 148-182): use the existing database (round-trip
query, set flag, wipe — a raising wipe is caught and falls through with the
flag already set), else create mosdac_db, else community-edition handling. -/
def tryWorkarounds (s : Neo4jSession) : TCResult :=
  match s.testQuery with
  | .ok _ =>
    match s.wipeOutcome with
    | .ok _ => ⟨true, [.runTestQuery, .wipeData true], true⟩
    | .error _ => workaroundsTail s [.runTestQuery, .wipeData false] true
  | .error _ => workaroundsTail s [.runTestQuery] false

/-- The four creation statements of _try_create_database (lines 94-103). -/
def createMethods : List String :=
  ["CREATE DATABASE `default_db`",
   "CREATE DATABASE default_db",
   "CREATE DATABASE \x27default_db\x27",
   "CREATE DATABASE \"default_db\""]

/-- The attempt loop of _try_create_database (lines 105-146): on creation
success, settle wait then status poll; on an "already exists" error, success;
on another error at the last attempt, classify and fall back; otherwise try
the next statement.  The empty-list case models the unreachable fall-through
`return False` after the loop. -/
def tryCreateAux (s : Neo4jSession) : List String → TCResult
  | [] => ⟨false, [], false⟩
  | m :: rest =>
    match s.createOutcome m with
    | .ok _ =>
      ⟨pollDecision s, [.createDb m true, .sleepSeconds 3, .queryShowStatus],
       false⟩
    | .error e =>
      if pyInLower "already exists" e then
        ⟨true, [.createDb m false], false⟩
      else if rest.isEmpty then
        if pyInLower "illegal" e && pyInLower "character" e then
          let r := tryWorkarounds s
          ⟨r.result, .createDb m false :: r.events, r.flag⟩
        else if pyInLower "unsupported" e || pyInLower "community" e then
          let r := handleCommunityEdition s
          ⟨r.result, .createDb m false :: r.events, r.flag⟩
        else
          let r := tryWorkarounds s
          ⟨r.result, .createDb m false :: r.events, r.flag⟩
      else
        let r := tryCreateAux s rest
        ⟨r.result, .createDb m false :: r.events, r.flag⟩

/-- _try_create_database over the four statements. -/
def tryCreateDatabase (s : Neo4jSession) : TCResult :=
  tryCreateAux s createMethods

/-- Result of setup_neo4j_database. -/
structure SetupResult where
  ok : Bool
  events : List BackendEv
  usingDefaultDb : Bool

/-- setup_neo4j_database (lines 37-90): session acquisition (failure hits the
outer except and returns False), version probe (errors swallowed), SHOW
DATABASES; when default_db is listed, return True immediately; when missing,
attempt creation — note the source returns True at line 82 even when
_try_create_database returned False; when SHOW DATABASES raises, both
classification branches call _handle_community_edition. -/
def setupNeo4jDatabase (s : Neo4jSession) : SetupResult :=
  match s.sessionAvailable with
  | .error _ => ⟨false, [], false⟩
  | .ok _ =>
    match s.showDatabases1 with
    | .ok dbs =>
      if "default_db" ∈ dbs then
        ⟨true, [.queryComponents, .queryShowDatabases], false⟩
      else
        let r := tryCreateDatabase s
        ⟨true, [.queryComponents, .queryShowDatabases] ++ r.events, r.flag⟩
    | .error _ =>
      let r := handleCommunityEdition s
      ⟨r.result, [.queryComponents, .queryShowDatabases] ++ r.events, r.flag⟩

/-- Oracle for the Graphiti client calls used during bootstrap. -/
structure GraphitiModel where
  buildIndices1 : Except String Unit
  closeOutcome : Except String Unit
  buildIndices2 : Except String Unit

/-- Result of initialize_graphiti. -/
structure InitResult where
  ok : Bool
  events : List BackendEv

/-- initialize_graphiti (lines 206-246) with
_handle_graphiti_database_issue (lines 248-278): database setup, then index
and constraint building; on a "database ... default_db" error the client is
closed and re-created and the build retried once; any other build error is
re-raised into the outer except and returns False. -/
def initGraphiti (s : Neo4jSession) (g : GraphitiModel) : InitResult :=
  let su := setupNeo4jDatabase s
  if su.ok then
    match g.buildIndices1 with
    | .ok _ => ⟨true, su.events ++ [.buildIndices]⟩
    | .error e =>
      if pyInLower "database" e && pyInLower "default_db" e then
        match g.closeOutcome with
        | .error _ => ⟨false, su.events ++ [.buildIndices, .closeGraphitiClient]⟩
        | .ok _ =>
          match g.buildIndices2 with
          | .ok _ =>
            ⟨true, su.events ++ [.buildIndices, .closeGraphitiClient,
              .sleepSeconds 2, .buildIndices]⟩
          | .error _ =>
            ⟨false, su.events ++ [.buildIndices, .closeGraphitiClient,
              .sleepSeconds 2, .buildIndices]⟩
      else ⟨false, su.events ++ [.buildIndices]⟩
  else ⟨false, su.events⟩

/-- Does the returned Except carry `true`? -/
def isOkTrue : Except String Bool → Bool
  | .ok true => true
  | _ => false

/-- Result of load_all_datasets. -/
structure RunResult where
  initOk : Bool
  totalLoaded : Nat
  fileOps : List FileOp
  episodes : List Episode
  attempted : List Episode
  warnings : List String
  statsAttempted : Bool

/-- load_all_datasets (lines 462-489): bootstrap, early return on failure
(no dataset is read, no summary or statistics step runs); otherwise each of
the five datasets is loaded in DATASETS order, successes are counted, and
display_stats is invoked (its own failures are caught internally). -/
def loadAllDatasets (s : Neo4jSession) (g : GraphitiModel)
    (fs : String → FileResult) (submitOk : Episode → Bool)
    (rt : String) : RunResult :=
  if (initGraphiti s g).ok then
    let results := DATASETS.map (fun p => loadDataset fs submitOk rt p.1)
    ⟨true,
     results.countP (fun r => isOkTrue r.outcome),
     (results.map DSResult.fileOps).flatten,
     (results.map DSResult.episodes).flatten,
     (results.map DSResult.attempted).flatten,
     (results.map DSResult.warnings).flatten,
     true⟩
  else ⟨false, 0, [], [], [], [], false⟩

/-- Abstract backend state touched by bootstrap side effects. -/
structure BackendDbState where
  databases : List String
  nodeCount : Nat

/-- Effect of one backend event on the backend state: only a succeeded
CREATE DATABASE or data wipe changes anything. -/
def applyEvent (st : BackendDbState) : BackendEv → BackendDbState
  | .createDb _ true => { st with databases := st.databases ++ ["default_db"] }
  | .createMosdac true => { st with databases := st.databases ++ ["mosdac_db"] }
  | .wipeData true => { st with nodeCount := 0 }
  | _ => st

/-- Effect of an event trace on the backend state. -/
def applyEvents (evs : List BackendEv) (st : BackendDbState) : BackendDbState :=
  evs.foldl applyEvent st

/-- Whether an event is a database-creation attempt or a data wipe. -/
def isCreationOrWipe : BackendEv → Bool
  | .createDb _ _ => true
  | .createMosdac _ => true
  | .wipeData _ => true
  | _ => false

/-- Close events of the teardown path. -/
inductive CloseEv where
  | closeGraphitiCall
  | closeDriverCall
deriving DecidableEq

/-- Oracle for the teardown calls: whether the two handles are set (the
Graphiti client always is after __init__; the driver may still be None when
setup never ran) and the outcome of each close call. -/
structure CloseModel where
  graphitiSet : Bool
  driverSet : Bool
  closeGraphiti : Except String Unit
  closeDriver : Except String Unit

/-- The try block of close (lines 512-517): both close calls live in the one
try, so a raising graphiti.close() skips driver.close(). -/
def closeTryBlock (m : CloseModel) : List CloseEv × Except String Unit :=
  if m.graphitiSet then
    match m.closeGraphiti with
    | .error e => ([.closeGraphitiCall], .error e)
    | .ok _ =>
      if m.driverSet then
        match m.closeDriver with
        | .error e => ([.closeGraphitiCall, .closeDriverCall], .error e)
        | .ok _ => ([.closeGraphitiCall, .closeDriverCall], .ok ())
      else ([.closeGraphitiCall], .ok ())
  else
    if m.driverSet then
      match m.closeDriver with
      | .error e => ([.closeDriverCall], .error e)
      | .ok _ => ([.closeDriverCall], .ok ())
    else ([], .ok ())

/-- close (lines 510-519): any exception of the try block is caught and
logged as a warning; the method itself never raises, which is why its result
type carries no exception. -/
def closeConnections (m : CloseModel) : List CloseEv × Option String :=
  match closeTryBlock m with
  | (evs, .ok _) => (evs, none)
  | (evs, .error e) => (evs, some ("Error closing connections: " ++ e))

/-- How the body of main's try block ended. -/
inductive RunExit where
  | normal
  | keyboardInterrupt
  | unexpected (msg : String)

/-- Result of main (lines 521-536). -/
structure MainResult where
  interruptedNote : Bool
  errorNote : Option String
  closeEvents : List CloseEv
  closeWarning : Option String

/-- main (lines 521-536): whatever way load_all_datasets ends — normal
return, KeyboardInterrupt, any other exception — the finally block runs
loader.close(). -/
def mainRun (exitMode : RunExit) (m : CloseModel) : MainResult :=
  match exitMode with
  | .normal =>
    let c := closeConnections m
    ⟨false, none, c.1, c.2⟩
  | .keyboardInterrupt =>
    let c := closeConnections m
    ⟨true, none, c.1, c.2⟩
  | .unexpected msg =>
    let c := closeConnections m
    ⟨false, some msg, c.1, c.2⟩

/-- The episode built by a satellite iteration on a dict record. -/
def satEpisodeObj (rt : String) (fs : List (String × JValue)) : Episode :=
  { name := "Satellite Mission: " ++
      pyStr ((lookupField fs "name").getD (.str "Unknown")),
    body := mkDict [("type", .str "satellite_mission"),
      ("name", (lookupField fs "name").getD .null),
      ("url", (lookupField fs "url").getD .null),
      ("description", (lookupField fs "description").getD .null),
      ("documents", (lookupField fs "documents").getD (.arr [])),
      ("category", .str "satellite")],
    source_kind := "json",
    source_description := "MOSDAC Satellite Mission Data",
    reference_time := rt }

/-- The episode built by a product iteration on a dict record. -/
def productEpisodeObj (rt : String) (fs : List (String × JValue)) : Episode :=
  { name := "Data Product: " ++
      pyStr ((lookupField fs "name").getD (.str "Unknown")),
    body := mkDict [("type", .str "data_product"),
      ("name", (lookupField fs "name").getD .null),
      ("category", (lookupField fs "category").getD .null),
      ("description", (lookupField fs "description").getD .null),
      ("url", (lookupField fs "url").getD .null),
      ("specifications", (lookupField fs "specifications").getD (.obj [])),
      ("download_info", (lookupField fs "download_info").getD (.obj [])),
      ("related_satellites", (lookupField fs "satellites").getD (.arr []))],
    source_kind := "json",
    source_description := "MOSDAC Product Catalog",
    reference_time := rt }

/-- The episode built by a document iteration on a dict record. -/
def documentEpisodeObj (rt : String) (fs : List (String × JValue)) : Episode :=
  { name := "Document: " ++
      pyStr ((lookupField fs "title").getD (.str "Unknown")),
    body := mkDict [("type", .str "documentation"),
      ("title", (lookupField fs "title").getD .null),
      ("url", (lookupField fs "url").getD .null),
      ("file_type", (lookupField fs "file_type").getD .null),
      ("size", (lookupField fs "size").getD .null),
      ("description", (lookupField fs "description").getD .null),
      ("related_mission", (lookupField fs "mission").getD .null),
      ("category", .str "documentation")],
    source_kind := "json",
    source_description := "MOSDAC Documentation",
    reference_time := rt }

/-- The episode built by a metadata iteration on a dict record. -/
def metadataEpisodeObj (rt : String) (fs : List (String × JValue)) : Episode :=
  { name := "Mission Metadata: " ++
      pyStr ((lookupField fs "mission").getD (.str "Unknown")),
    body := mkDict [("type", .str "mission_metadata"),
      ("mission", (lookupField fs "mission").getD .null),
      ("sensors", (lookupField fs "sensors").getD (.arr [])),
      ("launch_date", (lookupField fs "launch_date").getD .null),
      ("agency", (lookupField fs "agency").getD .null),
      ("orbit_type", (lookupField fs "orbit_type").getD .null),
      ("applications", (lookupField fs "applications").getD (.arr [])),
      ("technical_specs", (lookupField fs "technical_specs").getD (.obj [])),
      ("category", .str "metadata")],
    source_kind := "json",
    source_description := "MOSDAC Mission Technical Metadata",
    reference_time := rt }

/-- The episode built by a FAQ iteration on a dict record whose question
sliced to sv. -/
def faqEpisodeObj (rt : String) (fs : List (String × JValue)) (sv : JValue) :
    Episode :=
  { name := "FAQ: " ++ pyStr sv,
    body := mkDict [("type", .str "faq"),
      ("question", (lookupField fs "question").getD .null),
      ("answer", (lookupField fs "answer").getD .null),
      ("category", (lookupField fs "category").getD (.str "general")),
      ("tags", (lookupField fs "tags").getD (.arr [])),
      ("url", (lookupField fs "url").getD .null),
      ("category", .str "faq")],
    source_kind := "json",
    source_description := "MOSDAC FAQ Knowledge Base",
    reference_time := rt }

/-- Fixture: a backend whose session cannot even be opened (unreachable). -/
def unreachableSession : Neo4jSession :=
  { sessionAvailable := .error "ServiceUnavailable: connection refused",
    componentsOutcome := .error "ServiceUnavailable: connection refused",
    showDatabases1 := .error "ServiceUnavailable: connection refused",
    createOutcome := fun _ => .error "ServiceUnavailable: connection refused",
    showStatus := .error "ServiceUnavailable: connection refused",
    testQuery := .error "ServiceUnavailable: connection refused",
    wipeOutcome := .error "ServiceUnavailable: connection refused",
    createMosdacOutcome := .error "ServiceUnavailable: connection refused" }

/-- Fixture: a healthy backend on which default_db already exists. -/
def existingDbSession : Neo4jSession :=
  { sessionAvailable := .ok (),
    componentsOutcome := .ok (),
    showDatabases1 := .ok ["system", "neo4j", "default_db"],
    createOutcome := fun _ => .ok (),
    showStatus := .ok [("system", some "online"), ("neo4j", some "online"),
      ("default_db", some "online")],
    testQuery := .ok (),
    wipeOutcome := .ok (),
    createMosdacOutcome := .ok () }

/-- Fixture: a backend that rejects every creation statement with an
"already exists" error. -/
def aeSession : Neo4jSession :=
  { sessionAvailable := .ok (),
    componentsOutcome := .ok (),
    showDatabases1 := .ok ["system", "neo4j"],
    createOutcome := fun _ =>
      .error "Failed: database \"default_db\" already exists.",
    showStatus := .ok [],
    testQuery := .ok (),
    wipeOutcome := .ok (),
    createMosdacOutcome := .ok () }

/-- Fixture: creation succeeds and the status poll answers without error,
but the default_db row carries no currentStatus field. -/
def unknownStatusSession : Neo4jSession :=
  { sessionAvailable := .ok (),
    componentsOutcome := .ok (),
    showDatabases1 := .ok ["system", "neo4j"],
    createOutcome := fun _ => .ok (),
    showStatus := .ok [("system", some "online"), ("default_db", none)],
    testQuery := .ok (),
    wipeOutcome := .ok (),
    createMosdacOutcome := .ok () }

/-- Fixture: creation succeeds and the poll reports default_db online. -/
def onlineStatusSession : Neo4jSession :=
  { sessionAvailable := .ok (),
    componentsOutcome := .ok (),
    showDatabases1 := .ok ["system", "neo4j"],
    createOutcome := fun _ => .ok (),
    showStatus := .ok [("default_db", some "online")],
    testQuery := .ok (),
    wipeOutcome := .ok (),
    createMosdacOutcome := .ok () }

/-- Fixture: a Graphiti client whose index building succeeds. -/
def readyGraphiti : GraphitiModel :=
  { buildIndices1 := .ok (), closeOutcome := .ok (), buildIndices2 := .ok () }

/-- Fixture: a filesystem carrying one satellites file with one record. -/
def satOnlyFs : String → FileResult := fun p =>
  if p = joinPath DATA_DIR "satellites.json" then
    .content (.arr [.obj [("name", .str "INSAT-3D")]])
  else .missing

/-- Fixture: a filesystem carrying one faqs file with one record. -/
def faqOnlyFs : String → FileResult := fun p =>
  if p = joinPath DATA_DIR "faqs.json" then
    .content (.arr [.obj [("question", .str "Q")]])
  else .missing

/-- Fixture: teardown state in which closing the Graphiti client raises
while the driver is set and would close fine. -/
def failingCloseModel : CloseModel :=
  { graphitiSet := true, driverSet := true,
    closeGraphiti := .error "defunct connection", closeDriver := .ok () }

/-- A string with a non-empty left part is non-empty. -/
theorem strAppendNeEmpty {a : String} (b : String) (h : a ≠ "") : a ++ b ≠ "" := by
  intro hc
  apply h
  have hl := congrArg String.length hc
  rw [String.length_append] at hl
  have h0 : String.length "" = 0 := rfl
  rw [h0] at hl
  have h1 : a.length = a.data.length := rfl
  have hd : a.data = [] := List.length_eq_zero.mp (by omega)
  exact String.ext hd

/-- Every attempted episode of a loop comes from some record's successful
try block. -/
theorem runLoop_mem_attempted {step : JValue → Except String RecordOutcome}
    {rs : List JValue} {ep : Episode}
    (h : ep ∈ (runLoop step rs).attempted) :
    ∃ r ∈ rs, ∃ out, step r = .ok out ∧ out.attempted = some ep := by
  induction rs with
  | nil => simp [runLoop] at h
  | cons r rest ih =>
    rw [runLoop] at h
    cases hs : step r with
    | error e => rw [hs] at h; simp at h
    | ok out =>
      rw [hs] at h
      simp only [List.mem_append] at h
      rcases h with h | h
      · refine ⟨r, by simp, out, hs, ?_⟩
        cases hat : out.attempted with
        | none => rw [hat] at h; simp [Option.toList] at h
        | some e2 =>
          rw [hat] at h
          simp [Option.toList] at h
          rw [h]
      · obtain ⟨r2, hr2, out2, hs2, hat2⟩ := ih h
        exact ⟨r2, by simp [hr2], out2, hs2, hat2⟩

/-- Every submitted episode of a loop was attempted by the same record
outcome. -/
theorem runLoop_mem_episodes {step : JValue → Except String RecordOutcome}
    {rs : List JValue} {ep : Episode}
    (h : ep ∈ (runLoop step rs).episodes) :
    ∃ r ∈ rs, ∃ out, step r = .ok out ∧ out.episode = some ep := by
  induction rs with
  | nil => simp [runLoop] at h
  | cons r rest ih =>
    rw [runLoop] at h
    cases hs : step r with
    | error e => rw [hs] at h; simp at h
    | ok out =>
      rw [hs] at h
      simp only [List.mem_append] at h
      rcases h with h | h
      · refine ⟨r, by simp, out, hs, ?_⟩
        cases hat : out.episode with
        | none => rw [hat] at h; simp [Option.toList] at h
        | some e2 =>
          rw [hat] at h
          simp [Option.toList] at h
          rw [h]
      · obtain ⟨r2, hr2, out2, hs2, hat2⟩ := ih h
        exact ⟨r2, by simp [hr2], out2, hs2, hat2⟩

/-- When every record's try/except yields an outcome that is exactly one
submission or one warning, the loop completes and its submissions and
warnings partition the records. -/
theorem runLoop_complete {step : JValue → Except String RecordOutcome}
    {rs : List JValue}
    (h : ∀ r ∈ rs, ∃ out, step r = .ok out ∧
          out.episode.toList.length + out.warning.toList.length = 1) :
    (runLoop step rs).escaped = none ∧
    (runLoop step rs).episodes.length + (runLoop step rs).warnings.length =
      rs.length := by
  induction rs with
  | nil => simp [runLoop]
  | cons r rest ih =>
    obtain ⟨out, hs, hcount⟩ := h r (by simp)
    have htail := ih (fun r2 hr2 => h r2 (by simp [hr2]))
    rw [runLoop, hs]
    simp only [List.length_append, List.length_cons]
    exact ⟨htail.1, by omega⟩

/-- Any episode built by the satellite try block has the run's reference
time and the fixed name tag. -/
theorem satTryBlock_ok {rt : String} {r : JValue} {ep : Episode}
    (h : satTryBlock rt r = .ok ep) :
    ep.reference_time = rt ∧ ∃ t, ep.name = "Satellite Mission: " ++ t := by
  cases r <;>
    simp [satTryBlock, satelliteEpisodeData, dictGet, bind, Except.bind, pure,
      Except.pure] at h
  case obj fs =>
    cases h
    exact ⟨rfl, _, rfl⟩

/-- Any episode attempted or submitted by a satellite record iteration has
the run's reference time and the fixed name tag. -/
theorem satRecord_ok {so : Episode → Bool} {rt : String} {r : JValue}
    {out : RecordOutcome}
    (h : loadSatelliteRecord so rt r = .ok out) :
    ∀ ep, (out.attempted = some ep ∨ out.episode = some ep) →
      ep.reference_time = rt ∧ ∃ t, ep.name = "Satellite Mission: " ++ t := by
  intro ep hat
  rw [loadSatelliteRecord] at h
  cases htb : satTryBlock rt r with
  | ok ep2 =>
    rw [htb] at h
    dsimp only at h
    by_cases hso : so ep2 = true
    · rw [if_pos hso] at h
      cases h
      have hep2 : ep2 = ep := by rcases hat with hat | hat <;> simpa using hat
      subst hep2
      exact satTryBlock_ok htb
    · rw [if_neg hso] at h
      rw [satHandler] at h
      cases hg : dictGet r "name" (.str "Unknown") with
      | ok v =>
        rw [hg] at h; cases h
        rcases hat with hat | hat
        · have hep2 : ep2 = ep := by simpa using hat
          subst hep2
          exact satTryBlock_ok htb
        · simp at hat
      | error e => rw [hg] at h; cases h
  | error e =>
    rw [htb] at h
    dsimp only at h
    rw [satHandler] at h
    cases hg : dictGet r "name" (.str "Unknown") with
    | ok v =>
      rw [hg] at h; cases h
      rcases hat with hat | hat <;> simp at hat
    | error e2 => rw [hg] at h; cases h


/-- On a dict record the satellite try block always succeeds. -/
theorem satTryBlock_obj (rt : String) (fs : List (String × JValue)) :
    satTryBlock rt (.obj fs) = .ok (satEpisodeObj rt fs) := rfl

/-- A dict record never lets an exception escape a satellite iteration: the
outcome is exactly one submission or one warning. -/
theorem satRecord_obj {so : Episode → Bool} {rt : String} {r : JValue}
    (hr : r.isObj = true) :
    ∃ out, loadSatelliteRecord so rt r = .ok out ∧
      out.episode.toList.length + out.warning.toList.length = 1 := by
  cases r <;> simp [JValue.isObj] at hr
  case obj fs =>
    by_cases hso : so (satEpisodeObj rt fs) = true
    · refine ⟨⟨some (satEpisodeObj rt fs), some (satEpisodeObj rt fs), none⟩,
        ?_, by simp [Option.toList]⟩
      rw [loadSatelliteRecord, satTryBlock_obj]
      dsimp only
      rw [if_pos hso]
    · refine ⟨⟨some (satEpisodeObj rt fs), none,
        some ("Error loading satellite " ++
          pyStr ((lookupField fs "name").getD (.str "Unknown")))⟩,
        ?_, by simp [Option.toList]⟩
      rw [loadSatelliteRecord, satTryBlock_obj]
      dsimp only
      rw [if_neg hso]
      rfl

/-- Any episode built by the product try block has the run's reference time
and the fixed name tag. -/
theorem productTryBlock_ok {rt : String} {r : JValue} {ep : Episode}
    (h : productTryBlock rt r = .ok ep) :
    ep.reference_time = rt ∧ ∃ t, ep.name = "Data Product: " ++ t := by
  cases r <;>
    simp [productTryBlock, productEpisodeData, dictGet, bind, Except.bind,
      pure, Except.pure] at h
  case obj fs =>
    cases h
    exact ⟨rfl, _, rfl⟩

/-- Any episode attempted or submitted by a product record iteration has the
run's reference time and the fixed name tag. -/
theorem productRecord_ok {so : Episode → Bool} {rt : String} {r : JValue}
    {out : RecordOutcome}
    (h : loadProductRecord so rt r = .ok out) :
    ∀ ep, (out.attempted = some ep ∨ out.episode = some ep) →
      ep.reference_time = rt ∧ ∃ t, ep.name = "Data Product: " ++ t := by
  intro ep hat
  rw [loadProductRecord] at h
  cases htb : productTryBlock rt r with
  | ok ep2 =>
    rw [htb] at h
    dsimp only at h
    by_cases hso : so ep2 = true
    · rw [if_pos hso] at h
      cases h
      have hep2 : ep2 = ep := by rcases hat with hat | hat <;> simpa using hat
      subst hep2
      exact productTryBlock_ok htb
    · rw [if_neg hso] at h
      rw [productHandler] at h
      cases hg : dictGet r "name" (.str "Unknown") with
      | ok v =>
        rw [hg] at h; cases h
        rcases hat with hat | hat
        · have hep2 : ep2 = ep := by simpa using hat
          subst hep2
          exact productTryBlock_ok htb
        · simp at hat
      | error e => rw [hg] at h; cases h
  | error e =>
    rw [htb] at h
    dsimp only at h
    rw [productHandler] at h
    cases hg : dictGet r "name" (.str "Unknown") with
    | ok v =>
      rw [hg] at h; cases h
      rcases hat with hat | hat <;> simp at hat
    | error e2 => rw [hg] at h; cases h


/-- On a dict record the product try block always succeeds. -/
theorem productTryBlock_obj (rt : String) (fs : List (String × JValue)) :
    productTryBlock rt (.obj fs) = .ok (productEpisodeObj rt fs) := rfl

/-- A dict record never lets an exception escape a product iteration. -/
theorem productRecord_obj {so : Episode → Bool} {rt : String} {r : JValue}
    (hr : r.isObj = true) :
    ∃ out, loadProductRecord so rt r = .ok out ∧
      out.episode.toList.length + out.warning.toList.length = 1 := by
  cases r <;> simp [JValue.isObj] at hr
  case obj fs =>
    by_cases hso : so (productEpisodeObj rt fs) = true
    · refine ⟨⟨some (productEpisodeObj rt fs), some (productEpisodeObj rt fs),
        none⟩, ?_, by simp [Option.toList]⟩
      rw [loadProductRecord, productTryBlock_obj]
      dsimp only
      rw [if_pos hso]
    · refine ⟨⟨some (productEpisodeObj rt fs), none,
        some ("Error loading product " ++
          pyStr ((lookupField fs "name").getD (.str "Unknown")))⟩,
        ?_, by simp [Option.toList]⟩
      rw [loadProductRecord, productTryBlock_obj]
      dsimp only
      rw [if_neg hso]
      rfl

/-- Any episode built by the document try block has the run's reference time
and the fixed name tag. -/
theorem documentTryBlock_ok {rt : String} {r : JValue} {ep : Episode}
    (h : documentTryBlock rt r = .ok ep) :
    ep.reference_time = rt ∧ ∃ t, ep.name = "Document: " ++ t := by
  cases r <;>
    simp [documentTryBlock, documentEpisodeData, dictGet, bind, Except.bind,
      pure, Except.pure] at h
  case obj fs =>
    cases h
    exact ⟨rfl, _, rfl⟩

/-- Any episode attempted or submitted by a document record iteration has the
run's reference time and the fixed name tag. -/
theorem documentRecord_ok {so : Episode → Bool} {rt : String} {r : JValue}
    {out : RecordOutcome}
    (h : loadDocumentRecord so rt r = .ok out) :
    ∀ ep, (out.attempted = some ep ∨ out.episode = some ep) →
      ep.reference_time = rt ∧ ∃ t, ep.name = "Document: " ++ t := by
  intro ep hat
  rw [loadDocumentRecord] at h
  cases htb : documentTryBlock rt r with
  | ok ep2 =>
    rw [htb] at h
    dsimp only at h
    by_cases hso : so ep2 = true
    · rw [if_pos hso] at h
      cases h
      have hep2 : ep2 = ep := by rcases hat with hat | hat <;> simpa using hat
      subst hep2
      exact documentTryBlock_ok htb
    · rw [if_neg hso] at h
      rw [documentHandler] at h
      cases hg : dictGet r "title" (.str "Unknown") with
      | ok v =>
        rw [hg] at h; cases h
        rcases hat with hat | hat
        · have hep2 : ep2 = ep := by simpa using hat
          subst hep2
          exact documentTryBlock_ok htb
        · simp at hat
      | error e => rw [hg] at h; cases h
  | error e =>
    rw [htb] at h
    dsimp only at h
    rw [documentHandler] at h
    cases hg : dictGet r "title" (.str "Unknown") with
    | ok v =>
      rw [hg] at h; cases h
      rcases hat with hat | hat <;> simp at hat
    | error e2 => rw [hg] at h; cases h


/-- On a dict record the document try block always succeeds. -/
theorem documentTryBlock_obj (rt : String) (fs : List (String × JValue)) :
    documentTryBlock rt (.obj fs) = .ok (documentEpisodeObj rt fs) := rfl

/-- A dict record never lets an exception escape a document iteration. -/
theorem documentRecord_obj {so : Episode → Bool} {rt : String} {r : JValue}
    (hr : r.isObj = true) :
    ∃ out, loadDocumentRecord so rt r = .ok out ∧
      out.episode.toList.length + out.warning.toList.length = 1 := by
  cases r <;> simp [JValue.isObj] at hr
  case obj fs =>
    by_cases hso : so (documentEpisodeObj rt fs) = true
    · refine ⟨⟨some (documentEpisodeObj rt fs), some (documentEpisodeObj rt fs),
        none⟩, ?_, by simp [Option.toList]⟩
      rw [loadDocumentRecord, documentTryBlock_obj]
      dsimp only
      rw [if_pos hso]
    · refine ⟨⟨some (documentEpisodeObj rt fs), none,
        some ("Error loading document " ++
          pyStr ((lookupField fs "title").getD (.str "Unknown")))⟩,
        ?_, by simp [Option.toList]⟩
      rw [loadDocumentRecord, documentTryBlock_obj]
      dsimp only
      rw [if_neg hso]
      rfl

/-- Any episode built by the metadata try block has the run's reference time
and the fixed name tag. -/
theorem metadataTryBlock_ok {rt : String} {r : JValue} {ep : Episode}
    (h : metadataTryBlock rt r = .ok ep) :
    ep.reference_time = rt ∧ ∃ t, ep.name = "Mission Metadata: " ++ t := by
  cases r <;>
    simp [metadataTryBlock, metadataEpisodeData, dictGet, bind, Except.bind,
      pure, Except.pure] at h
  case obj fs =>
    cases h
    exact ⟨rfl, _, rfl⟩

/-- Any episode attempted or submitted by a metadata record iteration has the
run's reference time and the fixed name tag. -/
theorem metadataRecord_ok {so : Episode → Bool} {rt : String} {r : JValue}
    {out : RecordOutcome}
    (h : loadMetadataRecord so rt r = .ok out) :
    ∀ ep, (out.attempted = some ep ∨ out.episode = some ep) →
      ep.reference_time = rt ∧ ∃ t, ep.name = "Mission Metadata: " ++ t := by
  intro ep hat
  rw [loadMetadataRecord] at h
  cases htb : metadataTryBlock rt r with
  | ok ep2 =>
    rw [htb] at h
    dsimp only at h
    by_cases hso : so ep2 = true
    · rw [if_pos hso] at h
      cases h
      have hep2 : ep2 = ep := by rcases hat with hat | hat <;> simpa using hat
      subst hep2
      exact metadataTryBlock_ok htb
    · rw [if_neg hso] at h
      rw [metadataHandler] at h
      cases hg : dictGet r "mission" (.str "Unknown") with
      | ok v =>
        rw [hg] at h; cases h
        rcases hat with hat | hat
        · have hep2 : ep2 = ep := by simpa using hat
          subst hep2
          exact metadataTryBlock_ok htb
        · simp at hat
      | error e => rw [hg] at h; cases h
  | error e =>
    rw [htb] at h
    dsimp only at h
    rw [metadataHandler] at h
    cases hg : dictGet r "mission" (.str "Unknown") with
    | ok v =>
      rw [hg] at h; cases h
      rcases hat with hat | hat <;> simp at hat
    | error e2 => rw [hg] at h; cases h


/-- On a dict record the metadata try block always succeeds. -/
theorem metadataTryBlock_obj (rt : String) (fs : List (String × JValue)) :
    metadataTryBlock rt (.obj fs) = .ok (metadataEpisodeObj rt fs) := rfl

/-- A dict record never lets an exception escape a metadata iteration. -/
theorem metadataRecord_obj {so : Episode → Bool} {rt : String} {r : JValue}
    (hr : r.isObj = true) :
    ∃ out, loadMetadataRecord so rt r = .ok out ∧
      out.episode.toList.length + out.warning.toList.length = 1 := by
  cases r <;> simp [JValue.isObj] at hr
  case obj fs =>
    by_cases hso : so (metadataEpisodeObj rt fs) = true
    · refine ⟨⟨some (metadataEpisodeObj rt fs), some (metadataEpisodeObj rt fs),
        none⟩, ?_, by simp [Option.toList]⟩
      rw [loadMetadataRecord, metadataTryBlock_obj]
      dsimp only
      rw [if_pos hso]
    · refine ⟨⟨some (metadataEpisodeObj rt fs), none,
        some ("Error loading metadata " ++
          pyStr ((lookupField fs "mission").getD (.str "Unknown")))⟩,
        ?_, by simp [Option.toList]⟩
      rw [loadMetadataRecord, metadataTryBlock_obj]
      dsimp only
      rw [if_neg hso]
      rfl

/-- Any episode built by the FAQ try block has the run's reference time and
the fixed name tag. -/
theorem faqTryBlock_okInv {rt : String} {r : JValue} {ep : Episode}
    (h : faqTryBlock rt r = .ok ep) :
    ep.reference_time = rt ∧ ∃ t, ep.name = "FAQ: " ++ t := by
  cases r with
  | obj fs =>
    simp only [faqTryBlock, faqEpisodeData, dictGet, bind, Except.bind, pure,
      Except.pure] at h
    cases hsl : pySlice50 ((lookupField fs "question").getD (.str "Unknown")) with
    | error e =>
      rw [hsl] at h
      dsimp only at h
      cases h
    | ok sv =>
      rw [hsl] at h
      dsimp only at h
      cases h
      exact ⟨rfl, _, rfl⟩
  | null => simp [faqTryBlock, dictGet, bind, Except.bind] at h
  | bool b => simp [faqTryBlock, dictGet, bind, Except.bind] at h
  | num n => simp [faqTryBlock, dictGet, bind, Except.bind] at h
  | str s => simp [faqTryBlock, dictGet, bind, Except.bind] at h
  | arr xs => simp [faqTryBlock, dictGet, bind, Except.bind] at h

/-- Any episode attempted or submitted by a FAQ record iteration has the
run's reference time and the fixed name tag. -/
theorem faqRecord_ok {so : Episode → Bool} {rt : String} {r : JValue}
    {out : RecordOutcome}
    (h : loadFaqRecord so rt r = .ok out) :
    ∀ ep, (out.attempted = some ep ∨ out.episode = some ep) →
      ep.reference_time = rt ∧ ∃ t, ep.name = "FAQ: " ++ t := by
  intro ep hat
  rw [loadFaqRecord] at h
  cases htb : faqTryBlock rt r with
  | ok ep2 =>
    rw [htb] at h
    dsimp only at h
    by_cases hso : so ep2 = true
    · rw [if_pos hso] at h
      cases h
      have hep2 : ep2 = ep := by rcases hat with hat | hat <;> simpa using hat
      subst hep2
      exact faqTryBlock_okInv htb
    · rw [if_neg hso] at h
      rw [faqHandler] at h
      cases hg : dictGet r "question" (.str "Unknown") with
      | ok v =>
        rw [hg] at h
        dsimp only at h
        cases hsl : pySlice50 v with
        | ok sv =>
          rw [hsl] at h; cases h
          rcases hat with hat | hat
          · have hep2 : ep2 = ep := by simpa using hat
            subst hep2
            exact faqTryBlock_okInv htb
          · simp at hat
        | error e => rw [hsl] at h; cases h
      | error e => rw [hg] at h; cases h
  | error e =>
    rw [htb] at h
    dsimp only at h
    rw [faqHandler] at h
    cases hg : dictGet r "question" (.str "Unknown") with
    | ok v =>
      rw [hg] at h
      dsimp only at h
      cases hsl : pySlice50 v with
      | ok sv =>
        rw [hsl] at h; cases h
        rcases hat with hat | hat <;> simp at hat
      | error e2 => rw [hsl] at h; cases h
    | error e2 => rw [hg] at h; cases h

/-- A safe FAQ record's question expression slices successfully. -/
theorem faqSliceOk {fs : List (String × JValue)}
    (hr : faqRecordSafe (.obj fs) = true) :
    ∃ sv, pySlice50 ((lookupField fs "question").getD (.str "Unknown")) =
      .ok sv := by
  rw [faqRecordSafe] at hr
  cases hq : lookupField fs "question" with
  | none => exact ⟨.str ("Unknown".take 50), rfl⟩
  | some v =>
    rw [hq] at hr
    cases v <;> simp [sliceable] at hr <;> exact ⟨_, rfl⟩


/-- On a dict record with a successful slice, the FAQ try block succeeds. -/
theorem faqTryBlock_obj {rt : String} {fs : List (String × JValue)}
    {sv : JValue}
    (hsl : pySlice50 ((lookupField fs "question").getD (.str "Unknown")) =
      .ok sv) :
    faqTryBlock rt (.obj fs) = .ok (faqEpisodeObj rt fs sv) := by
  simp only [faqTryBlock, faqEpisodeData, dictGet, bind, Except.bind, pure,
    Except.pure]
  rw [hsl]
  rfl

/-- A safe record never lets an exception escape a FAQ iteration: the outcome
is exactly one submission or one warning. -/
theorem faqRecord_safe {so : Episode → Bool} {rt : String} {r : JValue}
    (hr : faqRecordSafe r = true) :
    ∃ out, loadFaqRecord so rt r = .ok out ∧
      out.episode.toList.length + out.warning.toList.length = 1 := by
  cases r <;> simp [faqRecordSafe] at hr
  case obj fs =>
    obtain ⟨sv, hsl⟩ := faqSliceOk (by rw [faqRecordSafe]; exact hr)
    by_cases hso : so (faqEpisodeObj rt fs sv) = true
    · refine ⟨⟨some (faqEpisodeObj rt fs sv), some (faqEpisodeObj rt fs sv),
        none⟩, ?_, by simp [Option.toList]⟩
      rw [loadFaqRecord, faqTryBlock_obj hsl]
      dsimp only
      rw [if_pos hso]
    · refine ⟨⟨some (faqEpisodeObj rt fs sv), none,
        some ("Error loading FAQ " ++ pyStr sv)⟩, ?_, by simp [Option.toList]⟩
      rw [loadFaqRecord, faqTryBlock_obj hsl]
      dsimp only
      rw [if_neg hso]
      rw [faqHandler]
      show (match pySlice50 ((lookupField fs "question").getD (.str "Unknown"))
        with
        | .ok sv2 => Except.ok (⟨some (faqEpisodeObj rt fs sv), none,
            some ("Error loading FAQ " ++ pyStr sv2)⟩ : RecordOutcome)
        | .error e => Except.error e) = _
      rw [hsl]

/-- On a list value, a loader is exactly the per-record loop. -/
theorem runLoader_arr (step : JValue → Except String RecordOutcome)
    (rs : List JValue) : runLoader step (.arr rs) = runLoop step rs := rfl

/-- Any attempted or submitted episode of a loader comes from some record's
successful try/except outcome. -/
theorem runLoader_mem {step : JValue → Except String RecordOutcome}
    {data : JValue} {ep : Episode}
    (h : ep ∈ (runLoader step data).attempted ∨
      ep ∈ (runLoader step data).episodes) :
    ∃ r out, step r = .ok out ∧
      (out.attempted = some ep ∨ out.episode = some ep) := by
  rw [runLoader] at h
  cases hl : pyLen data with
  | error e => rw [hl] at h; rcases h with h | h <;> simp at h
  | ok n =>
    rw [hl] at h
    cases hi : pyIter data with
    | error e => rw [hi] at h; rcases h with h | h <;> simp at h
    | ok records =>
      rw [hi] at h
      rcases h with h | h
      · obtain ⟨r, _, out, hs, hat⟩ := runLoop_mem_attempted h
        exact ⟨r, out, hs, Or.inl hat⟩
      · obtain ⟨r, _, out, hs, hat⟩ := runLoop_mem_episodes h
        exact ⟨r, out, hs, Or.inr hat⟩

/-- Any attempted or submitted episode of the dataset router carries the
run's reference time. -/
theorem routeLoader_mem {so : Episode → Bool} {rt : String} {name : String}
    {data : JValue} {ep : Episode}
    (h : ep ∈ (routeLoader so rt name data).attempted ∨
      ep ∈ (routeLoader so rt name data).episodes) :
    ep.reference_time = rt := by
  rw [routeLoader] at h
  split_ifs at h
  · exact ((satRecord_ok (runLoader_mem h).choose_spec.choose_spec.1) ep
      (runLoader_mem h).choose_spec.choose_spec.2).1
  · exact ((productRecord_ok (runLoader_mem h).choose_spec.choose_spec.1) ep
      (runLoader_mem h).choose_spec.choose_spec.2).1
  · exact ((documentRecord_ok (runLoader_mem h).choose_spec.choose_spec.1) ep
      (runLoader_mem h).choose_spec.choose_spec.2).1
  · exact ((metadataRecord_ok (runLoader_mem h).choose_spec.choose_spec.1) ep
      (runLoader_mem h).choose_spec.choose_spec.2).1
  · exact ((faqRecord_ok (runLoader_mem h).choose_spec.choose_spec.1) ep
      (runLoader_mem h).choose_spec.choose_spec.2).1
  · rcases h with h | h <;> simp at h

/-- Any attempted or submitted episode of load_dataset carries the run's
reference time. -/
theorem loadDataset_mem {fs : String → FileResult} {so : Episode → Bool}
    {rt : String} {name : String} {ep : Episode}
    (h : ep ∈ (loadDataset fs so rt name).attempted ∨
      ep ∈ (loadDataset fs so rt name).episodes) :
    ep.reference_time = rt := by
  rw [loadDataset] at h
  cases hk : datasetsLookup DATASETS name with
  | none => rw [hk] at h; rcases h with h | h <;> simp at h
  | some fname =>
    rw [hk] at h
    dsimp only at h
    cases hf : fs (joinPath DATA_DIR fname) with
    | missing => rw [hf] at h; rcases h with h | h <;> simp at h
    | parseError => rw [hf] at h; rcases h with h | h <;> simp at h
    | content data =>
      rw [hf] at h
      dsimp only at h
      by_cases ht : isTruthy data = true
      · rw [if_pos ht] at h
        cases he : (routeLoader so rt name data).escaped with
        | some e =>
          rw [he] at h
          exact routeLoader_mem h
        | none =>
          rw [he] at h
          exact routeLoader_mem h
      · rw [if_neg ht] at h
        rcases h with h | h <;> simp at h

/-- Any attempted or submitted episode of a full run carries the run's
reference time. -/
theorem loadAll_mem {s : Neo4jSession} {g : GraphitiModel}
    {fs : String → FileResult} {so : Episode → Bool} {rt : String}
    {ep : Episode}
    (h : ep ∈ (loadAllDatasets s g fs so rt).attempted ∨
      ep ∈ (loadAllDatasets s g fs so rt).episodes) :
    ep.reference_time = rt := by
  rw [loadAllDatasets] at h
  by_cases hinit : (initGraphiti s g).ok = true
  · rw [if_pos hinit] at h
    dsimp only at h
    rcases h with h | h <;>
    · rw [List.mem_flatten] at h
      obtain ⟨l, hl, hep⟩ := h
      rw [List.mem_map] at hl
      obtain ⟨r, hr, hleq⟩ := hl
      rw [List.mem_map] at hr
      obtain ⟨p, _, hpeq⟩ := hr
      subst hleq
      subst hpeq
      first
      | exact loadDataset_mem (Or.inl hep)
      | exact loadDataset_mem (Or.inr hep)
  · rw [if_neg hinit] at h
    rcases h with h | h <;> simp at h

/-- C8: given a dataset identifier outside the fixed enumeration
{satellites, products, documents, mission_metadata, faqs}, load_dataset fails
with a KeyError from the DATASETS lookup before performing any file
operation: no existence check, open or parse is attempted. -/
theorem c8_router_lookup_error (fs : String → FileResult)
    (so : Episode → Bool) (rt : String) (name : String)
    (h : name ∉ ["satellites", "products", "documents", "mission_metadata",
      "faqs"]) :
    (loadDataset fs so rt name).outcome = .error "KeyError" ∧
    (loadDataset fs so rt name).fileOps = [] ∧
    (loadDataset fs so rt name).episodes = [] := by
  simp only [List.mem_cons, List.not_mem_nil, or_false, not_or] at h
  obtain ⟨h1, h2, h3, h4, h5⟩ := h
  have hk : datasetsLookup DATASETS name = none := by
    simp only [DATASETS, datasetsLookup]
    rw [if_neg (fun hc => h1 hc.symm), if_neg (fun hc => h2 hc.symm),
      if_neg (fun hc => h3 hc.symm), if_neg (fun hc => h4 hc.symm),
      if_neg (fun hc => h5 hc.symm)]
  rw [loadDataset, hk]
  exact ⟨rfl, rfl, rfl⟩

/-- Witness for C8 at the concrete identifier "galleries". -/
theorem c8_witness :
    "galleries" ∉ ["satellites", "products", "documents", "mission_metadata",
      "faqs"] ∧
    (loadDataset (fun _ => .missing) (fun _ => true) "RT" "galleries").outcome =
      .error "KeyError" ∧
    (loadDataset (fun _ => .missing) (fun _ => true) "RT" "galleries").fileOps =
      [] :=
  ⟨by decide,
   (c8_router_lookup_error (fun _ => .missing) (fun _ => true) "RT" "galleries"
     (by decide)).1,
   (c8_router_lookup_error (fun _ => .missing) (fun _ => true) "RT" "galleries"
     (by decide)).2.1⟩

/-- C3: if bootstrap (database setup plus index building) fails, the batch
orchestrator load_all_datasets aborts the whole run: the result reports zero
datasets loaded, no file is read, no episode is attempted or submitted, and
the statistics step is never reached. -/
theorem c3_bootstrap_failure_aborts (s : Neo4jSession) (g : GraphitiModel)
    (fs : String → FileResult) (so : Episode → Bool) (rt : String)
    (h : (initGraphiti s g).ok = false) :
    loadAllDatasets s g fs so rt =
      { initOk := false, totalLoaded := 0, fileOps := [], episodes := [],
        attempted := [], warnings := [], statsAttempted := false } := by
  rw [loadAllDatasets, h]
  rfl

/-- Witness for C3 against the unreachable backend fixture. -/
theorem c3_witness :
    (initGraphiti unreachableSession readyGraphiti).ok = false ∧
    loadAllDatasets unreachableSession readyGraphiti satOnlyFs
      (fun _ => true) "RT" =
      { initOk := false, totalLoaded := 0, fileOps := [], episodes := [],
        attempted := [], warnings := [], statsAttempted := false } :=
  ⟨rfl,
   c3_bootstrap_failure_aborts unreachableSession readyGraphiti satOnlyFs
     (fun _ => true) "RT" rfl⟩

/-- C2 counterexample: the canonical FAQ payload's category is NOT the
record's category defaulted to "general": the dict literal in load_faqs
lists the key "category" twice and the later fixed tag "faq" wins, so even
for the claim's own record {"question": "Q2"} (category absent) the payload
carries category "faq", not "general". -/
theorem c2_counterexample :
    faqEpisodeData (.obj [("question", .str "Q2")]) =
      .ok [("type", .str "faq"), ("question", .str "Q2"), ("answer", .null),
        ("category", .str "faq"), ("tags", .arr []), ("url", .null)] ∧
    lookupField [("type", .str "faq"), ("question", .str "Q2"),
        ("answer", .null), ("category", .str "faq"), ("tags", .arr []),
        ("url", .null)] "category" = some (.str "faq") ∧
    JValue.str "faq" ≠ JValue.str "general" :=
  ⟨rfl, rfl, by simp⟩

/-- C2 amended: every canonical FAQ payload has category "faq" (the
record-derived category-with-default on line 411 is evaluated but discarded
because the key is repeated on line 414); ingesting the two-record dataset
[{"question": "Q1", "answer": "A1"}, {"question": "Q2"}] produces two
episodes, the second with answer defaulted to null and category "faq". -/
theorem c2_amended :
    (∀ (faq : JValue) (payload : List (String × JValue)),
       faqEpisodeData faq = .ok payload →
       lookupField payload "category" = some (.str "faq")) ∧
    (∀ rt : String,
       ((loadFaqs (fun _ => true) rt
          (.arr [.obj [("question", .str "Q1"), ("answer", .str "A1")],
                 .obj [("question", .str "Q2")]])).episodes.map
          Episode.body) =
        [[("type", .str "faq"), ("question", .str "Q1"),
          ("answer", .str "A1"), ("category", .str "faq"), ("tags", .arr []),
          ("url", .null)],
         [("type", .str "faq"), ("question", .str "Q2"), ("answer", .null),
          ("category", .str "faq"), ("tags", .arr []), ("url", .null)]]) := by
  constructor
  · intro faq payload h
    cases faq <;>
      simp [faqEpisodeData, dictGet, bind, Except.bind, pure, Except.pure] at h
    case obj fs =>
      rw [← h]
      rfl
  · intro rt
    rfl

/-- Witness for C2 amended at the record of the counterexample. -/
theorem c2_witness :
    faqEpisodeData (.obj [("question", .str "Q2")]) =
      .ok [("type", .str "faq"), ("question", .str "Q2"), ("answer", .null),
        ("category", .str "faq"), ("tags", .arr []), ("url", .null)] ∧
    lookupField [("type", .str "faq"), ("question", .str "Q2"),
        ("answer", .null), ("category", .str "faq"), ("tags", .arr []),
        ("url", .null)] "category" = some (.str "faq") ∧
    ((loadFaqs (fun _ => true) "RT"
        (.arr [.obj [("question", .str "Q1"), ("answer", .str "A1")],
               .obj [("question", .str "Q2")]])).episodes.map
        Episode.body) =
      [[("type", .str "faq"), ("question", .str "Q1"), ("answer", .str "A1"),
        ("category", .str "faq"), ("tags", .arr []), ("url", .null)],
       [("type", .str "faq"), ("question", .str "Q2"), ("answer", .null),
        ("category", .str "faq"), ("tags", .arr []), ("url", .null)]] :=
  ⟨rfl,
   c2_amended.1 (.obj [("question", .str "Q2")]) _ rfl,
   c2_amended.2 "RT"⟩

/-- C10: for a dataset in the fixed enumeration, load_dataset reports success
exactly when the file was found, parsed, was truthy and the per-record loop
completed without an escaping exception — independently of how many episodes
were actually submitted (zero is possible when every record's submission
fails). -/
theorem c10_dataset_success_iff (fs : String → FileResult)
    (so : Episode → Bool) (rt : String) (name fname : String)
    (hk : datasetsLookup DATASETS name = some fname) :
    (loadDataset fs so rt name).outcome = .ok true ↔
      ∃ data, fs (joinPath DATA_DIR fname) = .content data ∧
        isTruthy data = true ∧
        (routeLoader so rt name data).escaped = none := by
  rw [loadDataset, hk]
  dsimp only
  cases hf : fs (joinPath DATA_DIR fname) with
  | missing =>
    constructor
    · intro h; simp at h
    · rintro ⟨data, hd, _, _⟩; cases hd
  | parseError =>
    constructor
    · intro h; simp at h
    · rintro ⟨data, hd, _, _⟩; cases hd
  | content data0 =>
    dsimp only
    by_cases ht : isTruthy data0 = true
    · rw [if_pos ht]
      cases he : (routeLoader so rt name data0).escaped with
      | some e =>
        constructor
        · intro h; simp at h
        · rintro ⟨data, hd, _, he2⟩
          cases hd
          rw [he] at he2
          cases he2
      | none =>
        constructor
        · intro _; exact ⟨data0, rfl, ht, he⟩
        · intro _; rfl
    · rw [if_neg ht]
      constructor
      · intro h; simp at h
      · rintro ⟨data, hd, ht2, _⟩
        cases hd
        exact absurd ht2 ht

/-- Witness for C10: a faqs file whose single record is rejected by the
backend — the dataset still counts as loaded with zero episodes. -/
theorem c10_witness :
    datasetsLookup DATASETS "faqs" = some "faqs.json" ∧
    (loadDataset faqOnlyFs (fun _ => false) "RT" "faqs").outcome = .ok true ∧
    (loadDataset faqOnlyFs (fun _ => false) "RT" "faqs").episodes = [] ∧
    (loadDataset faqOnlyFs (fun _ => false) "RT" "faqs").warnings.length = 1 :=
  ⟨rfl,
   (c10_dataset_success_iff faqOnlyFs (fun _ => false) "RT" "faqs" "faqs.json"
     rfl).mpr ⟨.arr [.obj [("question", .str "Q")]], rfl, rfl, rfl⟩,
   rfl, rfl⟩

/-- C6: for every record of every entity kind, the episode name handed to
add_episode starts with the fixed kind tag and is therefore non-empty, even
when the record's identity field is absent (placeholder substitution). -/
theorem c6_episode_names (so : Episode → Bool) (rt : String) (data : JValue) :
    (∀ ep ∈ (loadSatellites so rt data).attempted,
       (∃ t, ep.name = "Satellite Mission: " ++ t) ∧ ep.name ≠ "") ∧
    (∀ ep ∈ (loadProducts so rt data).attempted,
       (∃ t, ep.name = "Data Product: " ++ t) ∧ ep.name ≠ "") ∧
    (∀ ep ∈ (loadDocuments so rt data).attempted,
       (∃ t, ep.name = "Document: " ++ t) ∧ ep.name ≠ "") ∧
    (∀ ep ∈ (loadMissionMetadata so rt data).attempted,
       (∃ t, ep.name = "Mission Metadata: " ++ t) ∧ ep.name ≠ "") ∧
    (∀ ep ∈ (loadFaqs so rt data).attempted,
       (∃ t, ep.name = "FAQ: " ++ t) ∧ ep.name ≠ "") := by
  refine ⟨?_, ?_, ?_, ?_, ?_⟩
  · intro ep hep
    obtain ⟨r, out, hs, hat⟩ := runLoader_mem (Or.inl hep)
    obtain ⟨_, t, hn⟩ := satRecord_ok hs ep hat
    exact ⟨⟨t, hn⟩, by rw [hn]; exact strAppendNeEmpty t (by decide)⟩
  · intro ep hep
    obtain ⟨r, out, hs, hat⟩ := runLoader_mem (Or.inl hep)
    obtain ⟨_, t, hn⟩ := productRecord_ok hs ep hat
    exact ⟨⟨t, hn⟩, by rw [hn]; exact strAppendNeEmpty t (by decide)⟩
  · intro ep hep
    obtain ⟨r, out, hs, hat⟩ := runLoader_mem (Or.inl hep)
    obtain ⟨_, t, hn⟩ := documentRecord_ok hs ep hat
    exact ⟨⟨t, hn⟩, by rw [hn]; exact strAppendNeEmpty t (by decide)⟩
  · intro ep hep
    obtain ⟨r, out, hs, hat⟩ := runLoader_mem (Or.inl hep)
    obtain ⟨_, t, hn⟩ := metadataRecord_ok hs ep hat
    exact ⟨⟨t, hn⟩, by rw [hn]; exact strAppendNeEmpty t (by decide)⟩
  · intro ep hep
    obtain ⟨r, out, hs, hat⟩ := runLoader_mem (Or.inl hep)
    obtain ⟨_, t, hn⟩ := faqRecord_ok hs ep hat
    exact ⟨⟨t, hn⟩, by rw [hn]; exact strAppendNeEmpty t (by decide)⟩

/-- Witness for C6 at a satellite record with no identity field at all. -/
theorem c6_witness :
    (loadSatellites (fun _ => true) "RT" (.arr [.obj []])).attempted =
      [satEpisodeObj "RT" []] ∧
    (∃ t, (satEpisodeObj "RT" []).name = "Satellite Mission: " ++ t) ∧
    (satEpisodeObj "RT" []).name ≠ "" :=
  ⟨rfl,
   (c6_episode_names (fun _ => true) "RT" (.arr [.obj []])).1
     (satEpisodeObj "RT" [])
     (by
       rw [show (loadSatellites (fun _ => true) "RT"
         (.arr [.obj []])).attempted = [satEpisodeObj "RT" []] from rfl]
       exact List.mem_singleton.mpr rfl)⟩

/-- C7: every episode submitted during one run of load_all_datasets carries
the loader's single reference_time, fixed at construction; with a non-empty
run timestamp every episode's reference_time is non-empty and identical
across all five dataset loaders. -/
theorem c7_shared_reference_time (s : Neo4jSession) (g : GraphitiModel)
    (fs : String → FileResult) (so : Episode → Bool) (rt : String)
    (h : rt ≠ "") :
    ∀ ep ∈ (loadAllDatasets s g fs so rt).episodes,
      ep.reference_time = rt ∧ ep.reference_time ≠ "" := by
  intro ep hep
  have hrt := loadAll_mem (Or.inr hep)
  exact ⟨hrt, by rw [hrt]; exact h⟩

/-- Witness for C7 on a full concrete run producing one episode. -/
theorem c7_witness :
    (loadAllDatasets existingDbSession readyGraphiti satOnlyFs (fun _ => true)
      "2025-01-01T00:00:00+00:00").episodes =
      [satEpisodeObj "2025-01-01T00:00:00+00:00"
        [("name", .str "INSAT-3D")]] ∧
    (satEpisodeObj "2025-01-01T00:00:00+00:00"
        [("name", .str "INSAT-3D")]).reference_time =
      "2025-01-01T00:00:00+00:00" ∧
    (satEpisodeObj "2025-01-01T00:00:00+00:00"
        [("name", .str "INSAT-3D")]).reference_time ≠ "" :=
  ⟨rfl,
   (c7_shared_reference_time existingDbSession readyGraphiti satOnlyFs
     (fun _ => true) "2025-01-01T00:00:00+00:00" (by decide)
     (satEpisodeObj "2025-01-01T00:00:00+00:00" [("name", .str "INSAT-3D")])
     (by
       rw [show (loadAllDatasets existingDbSession readyGraphiti satOnlyFs
         (fun _ => true) "2025-01-01T00:00:00+00:00").episodes =
         [satEpisodeObj "2025-01-01T00:00:00+00:00"
           [("name", .str "INSAT-3D")]] from rfl]
       exact List.mem_singleton.mpr rfl)).1,
   (c7_shared_reference_time existingDbSession readyGraphiti satOnlyFs
     (fun _ => true) "2025-01-01T00:00:00+00:00" (by decide)
     (satEpisodeObj "2025-01-01T00:00:00+00:00" [("name", .str "INSAT-3D")])
     (by
       rw [show (loadAllDatasets existingDbSession readyGraphiti satOnlyFs
         (fun _ => true) "2025-01-01T00:00:00+00:00").episodes =
         [satEpisodeObj "2025-01-01T00:00:00+00:00"
           [("name", .str "INSAT-3D")]] from rfl]
       exact List.mem_singleton.mpr rfl)).2⟩

/-- C1 counterexample: a two-record faqs dataset whose first record has a
non-sliceable question (the integer 1) and whose second record is valid,
against a backend that accepts every episode.  The claim predicts one
submitted episode and a completed loop; the code submits zero episodes,
emits no warning, and lets the TypeError escape the per-record loop (the
except handler re-evaluates the failing slice), so the remaining record is
never processed. -/
theorem c1_counterexample :
    (loadFaqs (fun _ => true) "RT"
      (.arr [.obj [("question", .num 1)],
             .obj [("question", .str "Q2")]])).episodes.length = 0 ∧
    (loadFaqs (fun _ => true) "RT"
      (.arr [.obj [("question", .num 1)],
             .obj [("question", .str "Q2")]])).escaped =
      some "TypeError: object is not subscriptable" ∧
    (loadFaqs (fun _ => true) "RT"
      (.arr [.obj [("question", .num 1)],
             .obj [("question", .str "Q2")]])).warnings = [] :=
  ⟨rfl, rfl, rfl⟩

/-- C1 amended: per-record fault isolation holds exactly for records whose
warning expression cannot itself raise — records that are dicts (and, for
FAQs, whose question is absent or sliceable).  For such records the loop
always completes and every record yields either a submitted episode or a
warning, so one submission failure among N records leaves N-1 episodes; a
record outside this class makes the except handler re-raise and the rest of
the dataset is skipped (load_dataset then catches it and marks the dataset
failed). -/
theorem c1_amended (so : Episode → Bool) (rt : String)
    (records : List JValue) :
    ((∀ r ∈ records, r.isObj = true) →
       (loadSatellites so rt (.arr records)).escaped = none ∧
       (loadSatellites so rt (.arr records)).episodes.length +
         (loadSatellites so rt (.arr records)).warnings.length =
         records.length) ∧
    ((∀ r ∈ records, r.isObj = true) →
       (loadProducts so rt (.arr records)).escaped = none ∧
       (loadProducts so rt (.arr records)).episodes.length +
         (loadProducts so rt (.arr records)).warnings.length =
         records.length) ∧
    ((∀ r ∈ records, r.isObj = true) →
       (loadDocuments so rt (.arr records)).escaped = none ∧
       (loadDocuments so rt (.arr records)).episodes.length +
         (loadDocuments so rt (.arr records)).warnings.length =
         records.length) ∧
    ((∀ r ∈ records, r.isObj = true) →
       (loadMissionMetadata so rt (.arr records)).escaped = none ∧
       (loadMissionMetadata so rt (.arr records)).episodes.length +
         (loadMissionMetadata so rt (.arr records)).warnings.length =
         records.length) ∧
    ((∀ r ∈ records, faqRecordSafe r = true) →
       (loadFaqs so rt (.arr records)).escaped = none ∧
       (loadFaqs so rt (.arr records)).episodes.length +
         (loadFaqs so rt (.arr records)).warnings.length =
         records.length) := by
  refine ⟨?_, ?_, ?_, ?_, ?_⟩ <;> intro h
  · exact runLoop_complete (fun r hr => satRecord_obj (h r hr))
  · exact runLoop_complete (fun r hr => productRecord_obj (h r hr))
  · exact runLoop_complete (fun r hr => documentRecord_obj (h r hr))
  · exact runLoop_complete (fun r hr => metadataRecord_obj (h r hr))
  · exact runLoop_complete (fun r hr => faqRecord_safe (h r hr))

/-- Witness for C1 amended on a one-record dataset safe for all five
loaders. -/
theorem c1_witness :
    ((loadSatellites (fun _ => true) "RT"
        (.arr [.obj [("question", .str "Q")]])).escaped = none ∧
      (loadSatellites (fun _ => true) "RT"
        (.arr [.obj [("question", .str "Q")]])).episodes.length +
        (loadSatellites (fun _ => true) "RT"
          (.arr [.obj [("question", .str "Q")]])).warnings.length = 1) ∧
    ((loadFaqs (fun _ => true) "RT"
        (.arr [.obj [("question", .str "Q")]])).escaped = none ∧
      (loadFaqs (fun _ => true) "RT"
        (.arr [.obj [("question", .str "Q")]])).episodes.length +
        (loadFaqs (fun _ => true) "RT"
          (.arr [.obj [("question", .str "Q")]])).warnings.length = 1) :=
  ⟨(c1_amended (fun _ => true) "RT" [.obj [("question", .str "Q")]]).1
     (fun r hr => by rw [List.mem_singleton.mp hr]; rfl),
   (c1_amended (fun _ => true) "RT"
     [.obj [("question", .str "Q")]]).2.2.2.2
     (fun r hr => by rw [List.mem_singleton.mp hr]; rfl)⟩

/-- C4: bootstrap is idempotent on a backend where default_db already
exists — setup succeeds, its event trace contains no CREATE DATABASE and no
data wipe, and it leaves the backend state untouched, so a second run sees
the identical backend and succeeds identically; moreover an "already
exists" error on any creation attempt (all earlier attempts having failed
with other errors) makes the creation step report success. -/
theorem c4_bootstrap_idempotent :
    (∀ (s : Neo4jSession) (dbs : List String) (st : BackendDbState),
       s.sessionAvailable = .ok () →
       s.showDatabases1 = .ok dbs →
       "default_db" ∈ dbs →
       (setupNeo4jDatabase s).ok = true ∧
       (setupNeo4jDatabase s).events.all (fun e => !isCreationOrWipe e) =
         true ∧
       applyEvents (setupNeo4jDatabase s).events st = st) ∧
    (∀ (s : Neo4jSession) (i : Nat),
       i < createMethods.length →
       (∀ j, j < i → ∃ e,
         s.createOutcome (createMethods.getD j "") = .error e ∧
         pyInLower "already exists" e = false) →
       (∃ e, s.createOutcome (createMethods.getD i "") = .error e ∧
         pyInLower "already exists" e = true) →
       (tryCreateDatabase s).result = true) := by
  constructor
  · intro s dbs st hs hdb hmem
    have hred : setupNeo4jDatabase s =
        ⟨true, [.queryComponents, .queryShowDatabases], false⟩ := by
      rw [setupNeo4jDatabase, hs]
      dsimp only
      rw [hdb]
      dsimp only
      rw [if_pos hmem]
    rw [hred]
    exact ⟨rfl, rfl, rfl⟩
  · intro s i hi hprior hae
    obtain ⟨e, he, het⟩ := hae
    have hi4 : i < 4 := by simpa [createMethods] using hi
    interval_cases i
    · have he' : s.createOutcome "CREATE DATABASE `default_db`" = .error e :=
        he
      simp [tryCreateDatabase, createMethods, tryCreateAux, he', het]
    · obtain ⟨e0, he0, hf0⟩ := hprior 0 (by omega)
      have he0' : s.createOutcome "CREATE DATABASE `default_db`" =
        .error e0 := he0
      have he' : s.createOutcome "CREATE DATABASE default_db" = .error e := he
      simp [tryCreateDatabase, createMethods, tryCreateAux, he0', hf0, he',
        het]
    · obtain ⟨e0, he0, hf0⟩ := hprior 0 (by omega)
      obtain ⟨e1, he1, hf1⟩ := hprior 1 (by omega)
      have he0' : s.createOutcome "CREATE DATABASE `default_db`" =
        .error e0 := he0
      have he1' : s.createOutcome "CREATE DATABASE default_db" =
        .error e1 := he1
      have he' : s.createOutcome "CREATE DATABASE \x27default_db\x27" =
        .error e := he
      simp [tryCreateDatabase, createMethods, tryCreateAux, he0', hf0, he1',
        hf1, he', het]
    · obtain ⟨e0, he0, hf0⟩ := hprior 0 (by omega)
      obtain ⟨e1, he1, hf1⟩ := hprior 1 (by omega)
      obtain ⟨e2, he2, hf2⟩ := hprior 2 (by omega)
      have he0' : s.createOutcome "CREATE DATABASE `default_db`" =
        .error e0 := he0
      have he1' : s.createOutcome "CREATE DATABASE default_db" =
        .error e1 := he1
      have he2' : s.createOutcome "CREATE DATABASE \x27default_db\x27" =
        .error e2 := he2
      have he' : s.createOutcome "CREATE DATABASE \"default_db\"" =
        .error e := he
      simp [tryCreateDatabase, createMethods, tryCreateAux, he0', hf0, he1',
        hf1, he2', hf2, he', het]

/-- Witness for C4 on the existing-database fixture and the already-exists
fixture. -/
theorem c4_witness :
    ((setupNeo4jDatabase existingDbSession).ok = true ∧
     (setupNeo4jDatabase existingDbSession).events.all
       (fun e => !isCreationOrWipe e) = true ∧
     applyEvents (setupNeo4jDatabase existingDbSession).events
       ⟨["system", "neo4j", "default_db"], 7⟩ =
       ⟨["system", "neo4j", "default_db"], 7⟩) ∧
    (tryCreateDatabase aeSession).result = true :=
  ⟨c4_bootstrap_idempotent.1 existingDbSession
     ["system", "neo4j", "default_db"] ⟨["system", "neo4j", "default_db"], 7⟩
     rfl rfl (by simp),
   c4_bootstrap_idempotent.2 aeSession 0 (by decide)
     (fun j hj => absurd hj (by omega))
     ⟨"Failed: database \"default_db\" already exists.", rfl, by decide⟩⟩

/-- The status poll loop decides by the first row named default_db. -/
theorem pollRows_find (rows : List (String × Option String)) :
    pollRows rows =
      (match rows.find? (fun row => row.1 = "default_db") with
       | none => true
       | some row => decide (row.2.getD "unknown" = "online")) := by
  induction rows with
  | nil => rfl
  | cons p rest ih =>
    obtain ⟨n, st⟩ := p
    by_cases hn : n = "default_db"
    · subst hn
      rw [pollRows]
      simp [List.find?]
    · rw [pollRows, if_neg (by simpa using hn)]
      rw [List.find?]
      simp only [hn, decide_eq_true_eq]
      simp [hn]
      exact ih

/-- C5 counterexample: after a successful creation the poll answers without
error but the default_db row has no currentStatus field (status defaults to
the literal "unknown"); the creation step returns failure, not success, so
"unknown-but-no-error is treated as success" is false. -/
theorem c5_counterexample :
    unknownStatusSession.createOutcome (createMethods.getD 0 "") = .ok () ∧
    unknownStatusSession.showStatus =
      .ok [("system", some "online"), ("default_db", none)] ∧
    (tryCreateDatabase unknownStatusSession).result = false :=
  ⟨rfl, rfl, rfl⟩

/-- C5 amended: after the first creation variant succeeds, the step sleeps a
fixed 3-second settle interval and polls SHOW DATABASES; it returns success
when the poll itself raises (bare except swallows it) or when no row is
named default_db, and when a default_db row is present it returns success
exactly for currentStatus "online" — a missing currentStatus (defaulted to
"unknown") or any other status yields failure. -/
theorem c5_amended (s : Neo4jSession)
    (h1 : s.createOutcome (createMethods.getD 0 "") = .ok ()) :
    (tryCreateDatabase s).events =
      [.createDb (createMethods.getD 0 "") true, .sleepSeconds 3,
       .queryShowStatus] ∧
    (∀ e, s.showStatus = .error e → (tryCreateDatabase s).result = true) ∧
    (∀ rows, s.showStatus = .ok rows →
       ((rows.find? (fun row => row.1 = "default_db") = none →
          (tryCreateDatabase s).result = true) ∧
        (∀ row, rows.find? (fun row => row.1 = "default_db") = some row →
          ((tryCreateDatabase s).result = true ↔ row.2 = some "online")))) := by
  have h1' : s.createOutcome "CREATE DATABASE `default_db`" = .ok () := h1
  have hred : tryCreateDatabase s =
      ⟨pollDecision s,
       [.createDb "CREATE DATABASE `default_db`" true, .sleepSeconds 3,
        .queryShowStatus], false⟩ := by
    simp only [tryCreateDatabase, createMethods, tryCreateAux]
    rw [h1']
  refine ⟨by rw [hred]; rfl, ?_, ?_⟩
  · intro e hse
    rw [hred]
    dsimp only
    rw [pollDecision, hse]
  · intro rows hse
    constructor
    · intro hfind
      rw [hred]
      dsimp only
      rw [pollDecision, hse]
      dsimp only
      rw [pollRows_find, hfind]
    · intro row hfind
      rw [hred]
      dsimp only
      rw [pollDecision, hse]
      dsimp only
      rw [pollRows_find, hfind]
      dsimp only
      cases hrow : row.2 with
      | none => simp
      | some v => simp

/-- Witness for C5 amended on the online-status fixture. -/
theorem c5_witness :
    onlineStatusSession.createOutcome (createMethods.getD 0 "") = .ok () ∧
    onlineStatusSession.showStatus = .ok [("default_db", some "online")] ∧
    (tryCreateDatabase onlineStatusSession).result = true ∧
    (tryCreateDatabase onlineStatusSession).events =
      [.createDb (createMethods.getD 0 "") true, .sleepSeconds 3,
       .queryShowStatus] :=
  ⟨rfl, rfl,
   (((c5_amended onlineStatusSession rfl).2.2
       [("default_db", some "online")] rfl).2
     ("default_db", some "online") rfl).mpr rfl,
   (c5_amended onlineStatusSession rfl).1⟩

/-- C9 counterexample: both close calls sit in the one try block of close()
(lines 512-516), so when graphiti.close() raises, driver.close() is never
attempted even though the driver is set — "a graceful close of BOTH the
high-level client and the low-level connection is attempted" is false. -/
theorem c9_counterexample :
    failingCloseModel.driverSet = true ∧
    (closeConnections failingCloseModel).1 = [CloseEv.closeGraphitiCall] ∧
    CloseEv.closeDriverCall ∉ (closeConnections failingCloseModel).1 :=
  ⟨rfl, rfl, by decide⟩

/-- C9 amended: on every exit mode of main (normal, KeyboardInterrupt,
unexpected exception) the finally block invokes close(); close() never
propagates an exception — a failing close is logged as a warning instead —
and the high-level client close is always attempted when the client is set;
but when that close raises, the low-level driver close is skipped (only on a
successful client close, with the driver set, are both closed). -/
theorem c9_amended (mode : RunExit) (m : CloseModel) :
    (mainRun mode m).closeEvents = (closeConnections m).1 ∧
    (mainRun mode m).closeWarning = (closeConnections m).2 ∧
    (m.graphitiSet = true →
      CloseEv.closeGraphitiCall ∈ (closeConnections m).1) ∧
    (∀ e, m.graphitiSet = true → m.closeGraphiti = .error e →
      CloseEv.closeDriverCall ∉ (closeConnections m).1) ∧
    (m.graphitiSet = true → m.closeGraphiti = .ok () → m.driverSet = true →
      CloseEv.closeDriverCall ∈ (closeConnections m).1) ∧
    ((closeTryBlock m).2 = .ok () → (closeConnections m).2 = none) ∧
    (∀ e, (closeTryBlock m).2 = .error e →
      (closeConnections m).2 =
        some ("Error closing connections: " ++ e)) := by
  obtain ⟨gs, ds, cg, cd⟩ := m
  refine ⟨by cases mode <;> rfl, by cases mode <;> rfl, ?_, ?_, ?_, ?_, ?_⟩
  · intro hg
    simp only at hg
    subst hg
    cases cg <;> cases ds <;> cases cd <;>
      simp [closeConnections, closeTryBlock]
  · intro e hg hcg
    simp only at hg hcg
    subst hg
    subst hcg
    cases ds <;> cases cd <;> simp [closeConnections, closeTryBlock]
  · intro hg hcg hd
    simp only at hg hcg hd
    subst hg
    subst hcg
    subst hd
    cases cd <;> simp [closeConnections, closeTryBlock]
  · intro hok
    rw [closeConnections]
    cases hcb : closeTryBlock ⟨gs, ds, cg, cd⟩ with
    | mk evs r =>
      rw [hcb] at hok
      dsimp only at hok
      rw [hok]
  · intro e herr
    rw [closeConnections]
    cases hcb : closeTryBlock ⟨gs, ds, cg, cd⟩ with
    | mk evs r =>
      rw [hcb] at herr
      dsimp only at herr
      rw [herr]

/-- Witness for C9 amended at an interrupted run over the failing-close
fixture: the close is invoked, the client close is attempted, the driver
close is skipped, and the failure is logged rather than propagated. -/
theorem c9_witness :
    (mainRun .keyboardInterrupt failingCloseModel).closeEvents =
      (closeConnections failingCloseModel).1 ∧
    CloseEv.closeGraphitiCall ∈ (closeConnections failingCloseModel).1 ∧
    CloseEv.closeDriverCall ∉ (closeConnections failingCloseModel).1 ∧
    (closeConnections failingCloseModel).2 =
      some ("Error closing connections: " ++ "defunct connection") :=
  ⟨(c9_amended .keyboardInterrupt failingCloseModel).1,
   (c9_amended .keyboardInterrupt failingCloseModel).2.2.1 rfl,
   (c9_amended .keyboardInterrupt failingCloseModel).2.2.2.1
     "defunct connection" rfl rfl,
   (c9_amended .keyboardInterrupt failingCloseModel).2.2.2.2.2.2
     "defunct connection" rfl⟩

end Mosdac
